import Mathlib

/-!
Verification development for the zakat financial-tracker frontend
(`frontend/app/page.tsx` and the theme provider). The page's core logic —
ticker ledgers, zakat calculation, fund extrapolation, column registry,
CSV export and the two fetch handlers — is embedded shallowly below.

Modelling conventions:
* JavaScript numbers that reach the core arrive through `JSON.parse` of a
  service response or through `Number(string)` filtered by
  `Number.isFinite`, so every number the core stores is finite; finite
  numbers are modelled as `ℚ`. A field that is `null` or absent is `none`
  (the code treats the two identically: `?? null` / `typeof … === "number"`).
* `Number(string)` itself can produce `NaN` or infinities, so it is
  modelled by `jsStringToNumber : String → JSNum` with explicit `nan`,
  `inf` and `negInf` values, following ECMAScript's string numeric
  literal grammar (whitespace trimming, empty string ↦ 0, decimal and
  scientific literals, signed `Infinity`, unsigned radix literals).
* `Intl.NumberFormat` / `toFixed` formatting is modelled over `ℚ` with the
  default `en` grouping and half-away-from-zero rounding; no claim below
  depends on the digits these produce, only on which branch is taken.
* React state updates are modelled as pure state-passing: each handler is
  a function from the pre-state (plus the request outcome, for the fetch
  handlers) to the post-state. A handler is modelled as run to
  completion, so its own `loading` flag ends `false`.
-/

namespace ZakatApp

/-- Result of JavaScript `Number(string)`: not-a-number, an infinity, or a
finite value (finite doubles are idealised as rationals). -/
inductive JSNum where
  | nan
  | inf
  | negInf
  | num (q : ℚ)
deriving DecidableEq, Repr

/-- JavaScript whitespace as trimmed by `String.prototype.trim` and by
`Number(string)` (the ASCII whitespace characters plus no-break space and
the byte-order mark; other exotic Unicode space separators are outside
the modelled fragment). -/
def jsWhitespace (c : Char) : Bool :=
  c = ' ' || c = '\t' || c = '\n' || c = '\r' || c = '\x0b' || c = '\x0c' || c = '\u00a0' || c = '\ufeff'

/-- Leading and trailing whitespace removed from a character list. -/
def trimChars (cs : List Char) : List Char :=
  ((cs.dropWhile jsWhitespace).reverse.dropWhile jsWhitespace).reverse

/-- JavaScript `String.prototype.trim`. -/
def jsTrim (s : String) : String :=
  String.mk (trimChars s.data)

/-- JavaScript `String.prototype.toUpperCase` on the ASCII range. -/
def jsToUpper (s : String) : String :=
  String.mk (s.data.map Char.toUpper)

/-- Value of one digit character in bases up to 16, as ECMAScript reads
radix digits. -/
def digitVal (c : Char) : Option ℕ :=
  if c.isDigit then some (c.toNat - 48)
  else if 'a' ≤ c ∧ c ≤ 'f' then some (c.toNat - 87)
  else if 'A' ≤ c ∧ c ≤ 'F' then some (c.toNat - 55)
  else none

/-- Parse a non-empty digit string in the given base; `none` when empty or
when a character is not a digit of the base. -/
def parseBaseDigits (base : ℕ) (cs : List Char) : Option ℕ :=
  if cs.isEmpty then none
  else
    cs.foldl
      (fun acc c =>
        acc.bind fun a =>
          (digitVal c).bind fun d =>
            if d < base then some (a * base + d) else none)
      (some 0)

/-- Numeric value of a decimal digit string (no validation). -/
def digitsVal10 (cs : List Char) : ℕ :=
  cs.foldl (fun n c => n * 10 + (c.toNat - 48)) 0

/-- Parse the mantissa of a decimal literal: `digits`, `digits.digits`,
`digits.` or `.digits` (at least one digit overall). -/
def parseMantissa (cs : List Char) : Option ℚ :=
  match cs.span (fun c => c != '.') with
  | (ip, []) => (parseBaseDigits 10 ip).map (fun n => (n : ℚ))
  | (ip, _ :: fp) =>
    if ip.isEmpty && fp.isEmpty then none
    else if ip.all Char.isDigit && fp.all Char.isDigit then
      some ((digitsVal10 ip : ℚ) + (digitsVal10 fp : ℚ) / (10 : ℚ) ^ fp.length)
    else none

/-- Parse an exponent part: optional sign then non-empty decimal digits. -/
def parseExponent (cs : List Char) : Option ℤ :=
  match cs with
  | '+' :: ds => (parseBaseDigits 10 ds).map (fun n => (n : ℤ))
  | '-' :: ds => (parseBaseDigits 10 ds).map (fun n => -(n : ℤ))
  | ds => (parseBaseDigits 10 ds).map (fun n => (n : ℤ))

/-- Parse an unsigned decimal literal with optional `e`/`E` exponent. -/
def parseDecimal (cs : List Char) : Option ℚ :=
  match cs.span (fun c => c != 'e' && c != 'E') with
  | (m, []) => parseMantissa m
  | (m, _ :: ex) =>
    (parseMantissa m).bind fun mv =>
      (parseExponent ex).map fun e => mv * (10 : ℚ) ^ e

/-- Decimal literal or `Infinity`, with the sign already split off. -/
def decimalUnsigned (cs : List Char) (neg : Bool) : JSNum :=
  if cs = "Infinity".data then (if neg then JSNum.negInf else JSNum.inf)
  else
    match parseDecimal cs with
    | some q => JSNum.num (if neg then -q else q)
    | none => JSNum.nan

/-- Signed decimal literal or signed `Infinity`. -/
def decimalSigned (cs : List Char) : JSNum :=
  match cs with
  | '+' :: rest => decimalUnsigned rest false
  | '-' :: rest => decimalUnsigned rest true
  | rest => decimalUnsigned rest false

/-- JavaScript `Number(string)`: trim whitespace, empty ↦ `0`, unsigned
radix literals (`0x…`, `0o…`, `0b…`), otherwise a signed decimal literal
or `Infinity`; anything else is `NaN`. -/
def jsStringToNumber (s : String) : JSNum :=
  match trimChars s.data with
  | [] => JSNum.num 0
  | '0' :: c :: rest =>
    if c = 'x' ∨ c = 'X' then (parseBaseDigits 16 rest).elim JSNum.nan (fun n => JSNum.num (n : ℚ))
    else if c = 'o' ∨ c = 'O' then (parseBaseDigits 8 rest).elim JSNum.nan (fun n => JSNum.num (n : ℚ))
    else if c = 'b' ∨ c = 'B' then (parseBaseDigits 2 rest).elim JSNum.nan (fun n => JSNum.num (n : ℚ))
    else decimalSigned ('0' :: c :: rest)
  | cs => decimalSigned cs

/-- `Number(string)` followed by the `Number.isFinite` filter used by the
ledger loops: `some` exactly for finite results. -/
def jsFiniteNumber (s : String) : Option ℚ :=
  match jsStringToNumber s with
  | JSNum.num q => some q
  | _ => none

/-- Insert a thousands separator every three digits; the input and output
are digit lists in reverse (least significant first). -/
def groupRev : List Char → List Char
  | a :: b :: c :: d :: rest => a :: b :: c :: ',' :: groupRev (d :: rest)
  | cs => cs

/-- Left-pad a digit list with zeros to the given width. -/
def padLeftZeros (cs : List Char) (width : ℕ) : List Char :=
  List.replicate (width - cs.length) '0' ++ cs

/-- Drop trailing zeros (given a reversed list) while the length stays at
least `minLen`. -/
def dropZerosToLen : List Char → ℕ → List Char
  | '0' :: rest, minLen =>
    if minLen ≤ rest.length then dropZerosToLen rest minLen else '0' :: rest
  | cs, _ => cs

/-- Drop trailing zeros while keeping at least `minLen` characters. -/
def stripTrailingZeros (cs : List Char) (minLen : ℕ) : List Char :=
  (dropZerosToLen cs.reverse minLen).reverse

/-- Round `q * 10 ^ d` half away from zero for non-negative `q` (the
absolute value is passed in), as `Intl.NumberFormat`'s default rounding
and `toFixed` do. -/
def scaledRound (q : ℚ) (d : ℕ) : ℕ :=
  (⌊q * (10 : ℚ) ^ d + 1 / 2⌋).toNat

/-- The page's `formatNumber`: `null`/`undefined`/`NaN` render as an em
dash; otherwise `Intl.NumberFormat` with the given minimum and maximum
fraction digits (the source's defaults are 0 and 2, passed explicitly
here) and default grouping. -/
def formatNumber (value : Option ℚ) (minimumFractionDigits maximumFractionDigits : ℕ) : String :=
  match value with
  | none => "—"
  | some q =>
    let neg := decide (q < 0)
    let scaled := scaledRound |q| maximumFractionDigits
    let ipStr := String.mk ((groupRev (toString (scaled / 10 ^ maximumFractionDigits)).data.reverse).reverse)
    let fracDigits :=
      stripTrailingZeros
        (padLeftZeros (toString (scaled % 10 ^ maximumFractionDigits)).data maximumFractionDigits)
        minimumFractionDigits
    let body := if fracDigits.isEmpty then ipStr else ipStr ++ "." ++ String.mk fracDigits
    if neg then "-" ++ body else body

/-- JavaScript `toFixed`: fixed number of fraction digits, no grouping,
sign taken from the argument. -/
def jsToFixed (q : ℚ) (digits : ℕ) : String :=
  let neg := decide (q < 0)
  let scaled := scaledRound |q| digits
  let ipStr := toString (scaled / 10 ^ digits)
  let body :=
    if digits = 0 then ipStr
    else ipStr ++ "." ++ String.mk (padLeftZeros (toString (scaled % 10 ^ digits)).data digits)
  if neg then "-" ++ body else body

/-- The page's `formatRatio`: em dash for `null`/`undefined`/`NaN`,
otherwise `(value * 100).toFixed(2)` with a percent sign. -/
def formatRatio (value : Option ℚ) : String :=
  match value with
  | none => "—"
  | some q => jsToFixed (q * 100) 2 ++ "%"

/-- First step of the page's `sanitizeCsvValue` (specialised to string
inputs; the `null`/`undefined` guard maps those to `""` before
stringification): `value.replace(/"/g, '""')`, doubling every
double-quote. -/
def escapeQuotes (cs : List Char) : List Char :=
  cs.foldr (fun c acc => if c = '"' then '"' :: '"' :: acc else c :: acc) []

/-- A character the CSV rule quotes on: comma, double-quote or newline
(the `/[",\n]/` test). -/
def csvSpecialChar (c : Char) : Bool :=
  c == '"' || c == ',' || c == '\n'

/-- Continuation of `sanitizeCsvValue`: wrap the escaped text in double
quotes when it contains a special character. -/
def sanitizeCsvValue (value : String) : String :=
  let escaped := String.mk (escapeQuotes value.data)
  if escaped.data.any csvSpecialChar then "\"" ++ escaped ++ "\"" else escaped

/-- The page's `createCsvContent`: sanitize every cell, join cells with
commas and rows (header first) with newlines. -/
def createCsvContent (headers : List String) (rows : List (List String)) : String :=
  String.intercalate "\n" ((headers :: rows).map (fun row => String.intercalate "," (row.map sanitizeCsvValue)))

/-- The response type `CompanyValuation` (numeric fields optional,
warnings an ordered list). -/
structure CompanyValuation where
  ticker : String
  company_name : Option String := none
  currency : Option String := none
  data_date : Option String := none
  price_date : Option String := none
  cash_and_equivalents : Option ℚ := none
  receivables : Option ℚ := none
  inventories : Option ℚ := none
  market_price : Option ℚ := none
  shares_outstanding : Option ℚ := none
  cri_per_share : Option ℚ := none
  cri_to_market_price_ratio : Option ℚ := none
  shares : Option ℚ := none
  warnings : List String := []
deriving DecidableEq, Repr

/-- The response type `FundHoldingValuation`. -/
structure FundHoldingValuation where
  ticker : Option String := none
  name : Option String := none
  isin : Option String := none
  cusip : Option String := none
  weight : Option ℚ := none
  company : Option CompanyValuation := none
  warnings : List String := []
deriving DecidableEq, Repr

/-- The response type `FundValuation`. -/
structure FundValuation where
  ticker : String
  fund_name : Option String := none
  currency : Option String := none
  market_price : Option ℚ := none
  price_date : Option String := none
  aggregate_cri_per_share : Option ℚ := none
  aggregate_cri_to_market_price_ratio : Option ℚ := none
  total_weight_covered : Option ℚ := none
  holdings : List FundHoldingValuation := []
  warnings : List String := []
deriving DecidableEq, Repr

/-- The response type `ValuationResponse`. -/
structure ValuationResponse where
  generated_at : String
  as_of_date : String
  portfolio : List CompanyValuation
  funds : List FundValuation
deriving DecidableEq, Repr

/-- One user input row of the direct-portfolio form (all fields are raw
input strings). -/
structure PortfolioInputRow where
  ticker : String
  shares : String
  amount : String
deriving DecidableEq, Repr

/-- One user input row of the fund form. -/
structure FundInputRow where
  ticker : String
  amount : String
deriving DecidableEq, Repr

/-- A ticker ledger: the `Map<string, number>` of summed invested
amounts, modelled by its lookup function. -/
abbrev AmountMap := String → Option ℚ

/-- One iteration of the ledger loops: skip a blank (trimmed) ticker,
skip an amount that is not a finite number, otherwise add the amount to
the uppercased ticker's running sum. -/
def ledgerInsert (map : AmountMap) (tickerRaw amountRaw : String) : AmountMap :=
  let ticker := jsToUpper (jsTrim tickerRaw)
  if ticker = "" then map
  else
    match jsFiniteNumber amountRaw with
    | none => map
    | some amountValue =>
      fun key => if key = ticker then some (((map ticker).getD 0) + amountValue) else map key

/-- The page's `fundAmountMap` memo: fold the fund input rows into a
ledger. -/
def fundAmountMap (fundRows : List FundInputRow) : AmountMap :=
  fundRows.foldl (fun map row => ledgerInsert map row.ticker row.amount) (fun _ => none)

/-- The page's `portfolioAmountMap` memo: fold the portfolio input rows
into a ledger, independently of the fund rows. -/
def portfolioAmountMap (portfolioRows : List PortfolioInputRow) : AmountMap :=
  portfolioRows.foldl (fun map row => ledgerInsert map row.ticker row.amount) (fun _ => none)

/-- The fixed zakat rate of the page. -/
def ZAKAT_RATE : ℚ := 0.025

/-- The page's `computePortfolioZakatableAmount`: `null` for a blank
ticker, a ledger miss, or a non-number ratio; otherwise invested amount
times the company's CRI-to-market-price ratio. -/
def computePortfolioZakatableAmount (amounts : AmountMap) (company : CompanyValuation) : Option ℚ :=
  if company.ticker = "" then none
  else
    match amounts (jsToUpper company.ticker), company.cri_to_market_price_ratio with
    | some investedAmount, some ratio => some (investedAmount * ratio)
    | _, _ => none

/-- The page's `computePortfolioZakatDue`: the zakatable amount times the
fixed rate, `null` when the zakatable amount is `null`. -/
def computePortfolioZakatDue (amounts : AmountMap) (company : CompanyValuation) : Option ℚ :=
  match computePortfolioZakatableAmount amounts company with
  | none => none
  | some zakatableAmount => some (zakatableAmount * ZAKAT_RATE)

/-- The `extrapolatedCriRatio` computed in the fund render body: aggregate
ratio divided by total weight covered, only when both are present and the
coverage is positive. -/
def extrapolatedCriRatio (fund : FundValuation) : Option ℚ :=
  match fund.aggregate_cri_to_market_price_ratio, fund.total_weight_covered with
  | some aggregateCriRatio, some totalWeightCovered =>
    if 0 < totalWeightCovered then some (aggregateCriRatio / totalWeightCovered) else none
  | _, _ => none

/-- The `zakatableAmount` computed in the fund render body: invested
amount from the fund ledger times the extrapolated ratio, `null` when
either is missing. -/
def fundZakatableAmount (amounts : AmountMap) (fund : FundValuation) : Option ℚ :=
  match amounts (jsToUpper fund.ticker), extrapolatedCriRatio fund with
  | some investedAmount, some ratio => some (investedAmount * ratio)
  | _, _ => none

/-- The `zakatDue` computed in the fund render body. -/
def fundZakatDue (amounts : AmountMap) (fund : FundValuation) : Option ℚ :=
  match fundZakatableAmount amounts fund with
  | none => none
  | some zakatableAmount => some (zakatableAmount * ZAKAT_RATE)

/-- Per-column session state (`ColumnConfig` in the source). -/
structure ColumnConfig where
  visible : Bool
  width : ℕ
deriving DecidableEq, Repr

/-- The `Record<string, ColumnConfig>` objects, modelled by their lookup
function (`none` = no entry for that id). -/
abbrev ColumnConfigMap := String → Option ColumnConfig

/-- A portfolio column definition (`PortfolioColumn` in the source). Every
`renderCell` of the portfolio table produces plain text, so both it and
`getExportValue` are `CompanyValuation → String`; the class-name fields
are presentation-only and omitted. -/
structure PortfolioColumn where
  id : String
  label : String
  tooltip : Option String := none
  defaultWidth : ℕ
  renderCell : CompanyValuation → String
  getExportValue : CompanyValuation → String
  cellTooltip : Option String := none

/-- A fund-holding column definition (`FundHoldingColumn` in the source). -/
structure FundHoldingColumn where
  id : String
  label : String
  tooltip : Option String := none
  defaultWidth : ℕ
  renderCell : FundHoldingValuation → String
  getExportValue : FundHoldingValuation → String
  cellTooltip : Option String := none

/-- JavaScript `String.prototype.toLowerCase` on the ASCII range. -/
def jsToLower (s : String) : String :=
  String.mk (s.data.map Char.toLower)

/-- The page's `getFundHoldingLabel`: `TICKER (Name)` when both are
truthy (non-empty) and differ case-insensitively; otherwise
`ticker ?? name ?? "N/A"` (note `??` passes an empty string through). -/
def getFundHoldingLabel (holding : FundHoldingValuation) : String :=
  match holding.ticker, holding.name with
  | some ticker, some name =>
    if ticker ≠ "" ∧ name ≠ "" ∧ jsToLower name ≠ jsToLower ticker then
      ticker ++ " (" ++ name ++ ")"
    else ticker
  | some ticker, none => ticker
  | none, some name => name
  | none, none => "N/A"

/-- The page's `portfolioColumns` memo: the twelve static column
definitions, closing over the portfolio ledger for the zakat columns. -/
def portfolioColumns (amounts : AmountMap) : List PortfolioColumn :=
  [ { id := "ticker", label := "Ticker", defaultWidth := 140,
      renderCell := fun company => company.ticker,
      getExportValue := fun company => company.ticker },
    { id := "company", label := "Company", defaultWidth := 220,
      renderCell := fun company => company.company_name.getD "-",
      getExportValue := fun company => company.company_name.getD "-" },
    { id := "currency", label := "Currency", defaultWidth := 120,
      renderCell := fun company => company.currency.getD "-",
      getExportValue := fun company => company.currency.getD "-" },
    { id := "cash", label := "Cash", defaultWidth := 140,
      renderCell := fun company => formatNumber company.cash_and_equivalents 0 2,
      getExportValue := fun company => formatNumber company.cash_and_equivalents 0 2 },
    { id := "receivables", label := "Receivables", defaultWidth := 140,
      renderCell := fun company => formatNumber company.receivables 0 2,
      getExportValue := fun company => formatNumber company.receivables 0 2 },
    { id := "inventories", label := "Inventories", defaultWidth := 140,
      renderCell := fun company => formatNumber company.inventories 0 2,
      getExportValue := fun company => formatNumber company.inventories 0 2 },
    { id := "market_price", label := "Market Price", defaultWidth := 160,
      renderCell := fun company => formatNumber company.market_price 2 4,
      getExportValue := fun company => formatNumber company.market_price 2 4 },
    { id := "shares", label := "Shares Used", defaultWidth := 150,
      renderCell := fun company => formatNumber company.shares_outstanding 0 0,
      getExportValue := fun company => formatNumber company.shares_outstanding 0 0 },
    { id := "cri_per_share", label := "CRI per Share",
      tooltip := some "Cash + Receivables + Inventories / Shares outstanding", defaultWidth := 160,
      renderCell := fun company => formatNumber company.cri_per_share 4 6,
      getExportValue := fun company => formatNumber company.cri_per_share 4 6,
      cellTooltip := some "Cash + Receivables + Inventories / Shares outstanding" },
    { id := "cri_ratio", label := "CRI / Price",
      tooltip := some "CRI per share / Market price", defaultWidth := 140,
      renderCell := fun company => formatRatio company.cri_to_market_price_ratio,
      getExportValue := fun company => formatRatio company.cri_to_market_price_ratio,
      cellTooltip := some "CRI per share / Market price" },
    { id := "zakatable_amount", label := "Zakatable Amount",
      tooltip := some "Invested amount x CRI / Price ratio", defaultWidth := 180,
      renderCell := fun company => formatNumber (computePortfolioZakatableAmount amounts company) 2 2,
      getExportValue := fun company => formatNumber (computePortfolioZakatableAmount amounts company) 2 2,
      cellTooltip := some "Invested amount x CRI / Price ratio" },
    { id := "zakat_due", label := "Zakat Due",
      tooltip := some "Zakatable amount x 2.5%", defaultWidth := 160,
      renderCell := fun company => formatNumber (computePortfolioZakatDue amounts company) 2 2,
      getExportValue := fun company => formatNumber (computePortfolioZakatDue amounts company) 2 2,
      cellTooltip := some "Zakatable amount x 2.5%" } ]

/-- The page's `fundHoldingColumns` memo: the nine static fund-holding
column definitions. -/
def fundHoldingColumns : List FundHoldingColumn :=
  [ { id := "holding", label := "Holding", defaultWidth := 220,
      renderCell := fun holding => getFundHoldingLabel holding,
      getExportValue := fun holding => getFundHoldingLabel holding },
    { id := "weight", label := "Weight",
      tooltip := some "Holding weight in the fund as reported in SEC filings", defaultWidth := 120,
      renderCell := fun holding =>
        match holding.weight with
        | some weight => formatRatio (some weight)
        | none => "N/A",
      getExportValue := fun holding =>
        match holding.weight with
        | some weight => formatRatio (some weight)
        | none => "N/A",
      cellTooltip := some "Holding weight in the fund as reported in SEC filings" },
    { id := "cash", label := "Cash", defaultWidth := 140,
      renderCell := fun holding => formatNumber (holding.company.bind (fun c => c.cash_and_equivalents)) 0 2,
      getExportValue := fun holding => formatNumber (holding.company.bind (fun c => c.cash_and_equivalents)) 0 2 },
    { id := "receivables", label := "Receivables", defaultWidth := 150,
      renderCell := fun holding => formatNumber (holding.company.bind (fun c => c.receivables)) 0 2,
      getExportValue := fun holding => formatNumber (holding.company.bind (fun c => c.receivables)) 0 2 },
    { id := "inventories", label := "Inventories", defaultWidth := 150,
      renderCell := fun holding => formatNumber (holding.company.bind (fun c => c.inventories)) 0 2,
      getExportValue := fun holding => formatNumber (holding.company.bind (fun c => c.inventories)) 0 2 },
    { id := "market_price", label := "Market Price", defaultWidth := 150,
      renderCell := fun holding => formatNumber (holding.company.bind (fun c => c.market_price)) 0 2,
      getExportValue := fun holding => formatNumber (holding.company.bind (fun c => c.market_price)) 0 2 },
    { id := "shares", label := "Shares Used", defaultWidth := 150,
      renderCell := fun holding => formatNumber (holding.company.bind (fun c => c.shares_outstanding)) 0 0,
      getExportValue := fun holding => formatNumber (holding.company.bind (fun c => c.shares_outstanding)) 0 0 },
    { id := "cri_per_share", label := "CRI per Share",
      tooltip := some "Cash + Receivables + Inventories / Shares outstanding", defaultWidth := 160,
      renderCell := fun holding => formatNumber (holding.company.bind (fun c => c.cri_per_share)) 4 6,
      getExportValue := fun holding => formatNumber (holding.company.bind (fun c => c.cri_per_share)) 4 6,
      cellTooltip := some "Cash + Receivables + Inventories / Shares outstanding" },
    { id := "cri_ratio", label := "CRI / Price",
      tooltip := some "CRI per share / Market price", defaultWidth := 140,
      renderCell := fun holding =>
        match holding.company.bind (fun c => c.cri_to_market_price_ratio) with
        | some ratio => formatRatio (some ratio)
        | none => "N/A",
      getExportValue := fun holding =>
        match holding.company.bind (fun c => c.cri_to_market_price_ratio) with
        | some ratio => formatRatio (some ratio)
        | none => "N/A",
      cellTooltip := some "CRI per share / Market price" } ]

/-- How the render paths resolve a column's visibility:
`config[column.id]?.visible ?? true`. -/
def resolvedVisible (config : ColumnConfigMap) (id : String) : Bool :=
  ((config id).map (fun c => c.visible)).getD true

/-- The page's initial portfolio column config (`Object.fromEntries` over
the definitions, everything visible at its default width). -/
def initialPortfolioColumnConfig (columns : List PortfolioColumn) : ColumnConfigMap :=
  fun id =>
    (columns.find? (fun column => column.id == id)).map
      (fun column => { visible := true, width := column.defaultWidth })

/-- The page's initial fund-holding column config. -/
def initialFundHoldingColumnConfig (columns : List FundHoldingColumn) : ColumnConfigMap :=
  fun id =>
    (columns.find? (fun column => column.id == id)).map
      (fun column => { visible := true, width := column.defaultWidth })

/-- The page's `handlePortfolioColumnVisibilityChange`: overwrite the
entry for `columnId` with the requested visibility, keeping the stored
width (or the column's default width, or 160 for an unknown id). -/
def handlePortfolioColumnVisibilityChange (columns : List PortfolioColumn)
    (config : ColumnConfigMap) (columnId : String) (visible : Bool) : ColumnConfigMap :=
  let fallbackWidth := ((columns.find? (fun col => col.id == columnId)).map (fun col => col.defaultWidth)).getD 160
  fun id =>
    if id = columnId then some { visible := visible, width := ((config columnId).map (fun c => c.width)).getD fallbackWidth }
    else config id

/-- The page's `handleFundColumnVisibilityChange`. -/
def handleFundColumnVisibilityChange (columns : List FundHoldingColumn)
    (config : ColumnConfigMap) (columnId : String) (visible : Bool) : ColumnConfigMap :=
  let fallbackWidth := ((columns.find? (fun col => col.id == columnId)).map (fun col => col.defaultWidth)).getD 160
  fun id =>
    if id = columnId then some { visible := visible, width := ((config columnId).map (fun c => c.width)).getD fallbackWidth }
    else config id

/-- The page's `visiblePortfolioColumns` memo: the definitions whose
resolved visibility is true, in definition order. -/
def visiblePortfolioColumns (columns : List PortfolioColumn) (config : ColumnConfigMap) : List PortfolioColumn :=
  columns.filter (fun column => resolvedVisible config column.id)

/-- The page's `visibleFundHoldingColumns` memo. -/
def visibleFundHoldingColumns (columns : List FundHoldingColumn) (config : ColumnConfigMap) : List FundHoldingColumn :=
  columns.filter (fun column => resolvedVisible config column.id)

/-- Sort key of the fund-holdings display comparator: the weight when it
is a number, otherwise negative infinity (`⊥` in `WithBot ℚ`). -/
def holdingWeightKey (holding : FundHoldingValuation) : WithBot ℚ :=
  match holding.weight with
  | some weight => (weight : WithBot ℚ)
  | none => ⊥

/-- The fund table body's `fund.holdings.slice().sort(...)`: a copy of the
holdings sorted by weight descending, unknown weights last (the stable
sort used by modern engines is modelled by `List.mergeSort`). -/
def displayedHoldings (fund : FundValuation) : List FundHoldingValuation :=
  fund.holdings.mergeSort (fun a b => decide (holdingWeightKey b ≤ holdingWeightKey a))

/-- The page's `handleDownloadPortfolio`, reduced to the CSV content it
hands to `triggerCsvDownload`: `none` models the early return when there
are no results (the timestamped filename is date plumbing outside the
modelled fragment). -/
def handleDownloadPortfolio (columns : List PortfolioColumn) (config : ColumnConfigMap)
    (portfolioResult : List CompanyValuation) : Option String :=
  if portfolioResult.isEmpty then none
  else
    let exportColumns := columns.filter (fun column => resolvedVisible config column.id)
    let headers := exportColumns.map (fun column => column.label) ++ ["Warnings"]
    let rows := portfolioResult.map
      (fun company =>
        exportColumns.map (fun column => column.getExportValue company) ++
          [String.intercalate " " company.warnings])
    some (createCsvContent headers rows)

/-- The fixed header list of `handleDownloadFundHoldings`. -/
def fundHoldingsCsvHeaders : List String :=
  ["Holding", "Ticker", "Name", "ISIN", "CUSIP", "Weight", "Cash", "Receivables",
   "Inventories", "Market Price", "Shares", "CRI per Share", "CRI / Price",
   "Holding Warnings", "Company Warnings"]

/-- One data row of `handleDownloadFundHoldings` (the row-building
callback over a holding). -/
def fundHoldingsCsvRow (holding : FundHoldingValuation) : List String :=
  let company := holding.company
  let criRatio := company.bind (fun c => c.cri_to_market_price_ratio)
  [ getFundHoldingLabel holding,
    holding.ticker.getD "—",
    holding.name.getD "—",
    holding.isin.getD "—",
    holding.cusip.getD "—",
    (match holding.weight with
     | some weight => formatRatio (some weight)
     | none => "N/A"),
    formatNumber (company.bind (fun c => c.cash_and_equivalents)) 0 2,
    formatNumber (company.bind (fun c => c.receivables)) 0 2,
    formatNumber (company.bind (fun c => c.inventories)) 0 2,
    formatNumber (company.bind (fun c => c.market_price)) 0 2,
    formatNumber (company.bind (fun c => c.shares_outstanding)) 0 0,
    formatNumber (company.bind (fun c => c.cri_per_share)) 4 6,
    (match criRatio with
     | some ratio => formatRatio (some ratio)
     | none => "N/A"),
    String.intercalate " " holding.warnings,
    ((company.map (fun c => c.warnings)).map (String.intercalate " ")).getD "" ]

/-- The page's `handleDownloadFundHoldings`, reduced to the CSV content:
a fixed fifteen-column layout built from the fund's holdings, with no
reference to the column-visibility configuration; `none` models the early
return when the fund has no holdings. -/
def handleDownloadFundHoldings (fund : FundValuation) : Option String :=
  if fund.holdings.isEmpty then none
  else some (createCsvContent fundHoldingsCsvHeaders (fund.holdings.map fundHoldingsCsvRow))

/-- The portfolio Download CSV button's `disabled` condition. -/
def downloadPortfolioDisabled (portfolioResult : List CompanyValuation) : Bool :=
  portfolioResult.length == 0

/-- Whether the portfolio table area shows the Select-at-least-one-column
message instead of the table (the `visiblePortfolioColumns.length > 0`
render branch). -/
def portfolioShowsSelectColumnsMessage (columns : List PortfolioColumn) (config : ColumnConfigMap) : Bool :=
  !(0 < (visiblePortfolioColumns columns config).length)

/-- The page's two tabs. -/
inductive Tab where
  | portfolio
  | funds
deriving DecidableEq, Repr

/-- The outcome of a valuation request once settled: a parsed response,
or the failure message produced from the error path (non-2xx body,
`Error.message`, or the generic fallback). -/
inductive FetchOutcome where
  | ok (payload : ValuationResponse)
  | failed (message : String)
deriving DecidableEq, Repr

/-- The slice of the page's React state the fetch handlers read and
write. -/
structure AppState where
  asOfDate : String
  portfolioRows : List PortfolioInputRow
  fundRows : List FundInputRow
  portfolioResult : List CompanyValuation
  fundResult : List FundValuation
  portfolioGeneratedAt : Option String
  fundGeneratedAt : Option String
  portfolioLoading : Bool
  fundLoading : Bool
  error : Option String
  activeTab : Tab
deriving DecidableEq, Repr

/-- The page's `handlePortfolioSubmit`, run to completion against the
settled request `outcome`: tab guard, as-of-date and non-empty-payload
validation, then either the results or the single shared `error` field
is written; `portfolioLoading` is toggled on and back off within the run. -/
def handlePortfolioSubmit (s : AppState) (outcome : FetchOutcome) : AppState :=
  if s.activeTab ≠ Tab.portfolio then s
  else if s.asOfDate = "" then
    { s with error := some "Select an as-of date before requesting valuations." }
  else if (s.portfolioRows.filter (fun row => jsTrim row.ticker ≠ "")).isEmpty then
    { s with error := some "Add at least one company ticker." }
  else
    match outcome with
    | FetchOutcome.ok payload =>
      { s with error := none, portfolioLoading := false,
               portfolioResult := payload.portfolio,
               portfolioGeneratedAt := some payload.generated_at }
    | FetchOutcome.failed message =>
      { s with error := some message, portfolioLoading := false }

/-- The page's `handleFundFetch`, run to completion against the settled
request `outcome` (no tab guard: it is a plain button handler). -/
def handleFundFetch (s : AppState) (outcome : FetchOutcome) : AppState :=
  if s.asOfDate = "" then
    { s with error := some "Select an as-of date before requesting fund holdings." }
  else if (s.fundRows.filter (fun row => jsTrim row.ticker ≠ "")).isEmpty then
    { s with error := some "Add at least one fund or ETF ticker." }
  else
    match outcome with
    | FetchOutcome.ok payload =>
      { s with error := none, fundLoading := false,
               fundResult := payload.funds,
               fundGeneratedAt := some payload.generated_at }
    | FetchOutcome.failed message =>
      { s with error := some message, fundLoading := false }

/-! Helper lemmas shared by several claims. -/

theorem escapeQuotes_any_special (cs : List Char) :
    (escapeQuotes cs).any csvSpecialChar = cs.any csvSpecialChar := by
  induction cs with
  | nil => rfl
  | cons c rest ih =>
    by_cases hc : c = '"'
    · subst hc
      simp [escapeQuotes, csvSpecialChar] at ih ⊢
    · simp [escapeQuotes, csvSpecialChar, hc] at ih ⊢
      rw [ih]

theorem escapeQuotes_no_quote (cs : List Char) (h : ∀ c ∈ cs, c ≠ '"') :
    escapeQuotes cs = cs := by
  induction cs with
  | nil => rfl
  | cons c rest ih =>
    have hc : c ≠ '"' := h c (List.mem_cons_self c rest)
    simp [escapeQuotes, hc] at ih ⊢
    exact ih fun x hx => h x (List.mem_cons_of_mem c hx)

theorem ledgerInsert_nan (map : AmountMap) (tickerRaw amountRaw : String)
    (h : jsFiniteNumber amountRaw = none) :
    ledgerInsert map tickerRaw amountRaw = map := by
  simp [ledgerInsert, h]

theorem ledgerInsert_miss (map : AmountMap) (tickerRaw amountRaw key : String)
    (h : key ≠ jsToUpper (jsTrim tickerRaw)) :
    ledgerInsert map tickerRaw amountRaw key = map key := by
  unfold ledgerInsert
  by_cases hb : jsToUpper (jsTrim tickerRaw) = ""
  · simp [hb]
  · simp only [hb, if_false]
    match jsFiniteNumber amountRaw with
    | none => rfl
    | some q => simp [h]

theorem ledgerInsert_hit (map : AmountMap) (tickerRaw amountRaw : String) (q : ℚ)
    (ht : jsToUpper (jsTrim tickerRaw) ≠ "") (ha : jsFiniteNumber amountRaw = some q) :
    ledgerInsert map tickerRaw amountRaw (jsToUpper (jsTrim tickerRaw)) =
      some ((map (jsToUpper (jsTrim tickerRaw))).getD 0 + q) := by
  simp [ledgerInsert, ht, ha]

theorem ledgerFold_blank_key {α : Type} (tick amt : α → String) (rows : List α)
    (m : AmountMap) (h : m "" = none) :
    (rows.foldl (fun map row => ledgerInsert map (tick row) (amt row)) m) "" = none := by
  induction rows generalizing m with
  | nil => exact h
  | cons row rest ih =>
    refine ih (ledgerInsert m (tick row) (amt row)) ?_
    unfold ledgerInsert
    by_cases hb : jsToUpper (jsTrim (tick row)) = ""
    · simp [hb, h]
    · simp only [hb, if_false]
      match jsFiniteNumber (amt row) with
      | none => exact h
      | some q => simp [Ne.symm hb, h]

theorem portfolioAmountMap_blank_key (rows : List PortfolioInputRow) :
    portfolioAmountMap rows "" = none := by
  unfold portfolioAmountMap
  exact ledgerFold_blank_key (fun row => row.ticker) (fun row => row.amount) rows (fun _ => none) rfl

theorem fundAmountMap_blank_key (rows : List FundInputRow) :
    fundAmountMap rows "" = none := by
  unfold fundAmountMap
  exact ledgerFold_blank_key (fun row => row.ticker) (fun row => row.amount) rows (fun _ => none) rfl

/-- C6. CSV serialization rule: a field containing a comma, double-quote
or line break is wrapped in double quotes with each internal double-quote
doubled; every other field is emitted unescaped; in particular
`Acme, Inc. "East"` serializes to `"Acme, Inc. ""East"""`. -/
theorem csv_escaping_rule (value : String) :
    (value.data.any csvSpecialChar = true →
       sanitizeCsvValue value = "\"" ++ String.mk (escapeQuotes value.data) ++ "\"") ∧
    (value.data.any csvSpecialChar = false → sanitizeCsvValue value = value) ∧
    sanitizeCsvValue "Acme, Inc. \"East\"" = "\"Acme, Inc. \"\"East\"\"\"" := by
  refine ⟨fun h => ?_, fun h => ?_, by decide⟩
  · simp [sanitizeCsvValue, escapeQuotes_any_special, h]
  · have hq : ∀ c ∈ value.data, c ≠ '"' := by
      intro c hc hcq
      have := List.any_eq_false.mp h c hc
      subst hcq
      simp [csvSpecialChar] at this
    simp [sanitizeCsvValue, escapeQuotes_any_special, h, escapeQuotes_no_quote value.data hq]

/-- Witness for C6: the serialized forms of `a,b` (quoted branch) and
`plain` (unescaped branch) at the theorem's concrete inputs. -/
theorem csv_escaping_rule_witness :
    sanitizeCsvValue "a,b" = "\"" ++ String.mk (escapeQuotes "a,b".data) ++ "\"" ∧
    sanitizeCsvValue "plain" = "plain" :=
  ⟨(csv_escaping_rule "a,b").1 (by decide), (csv_escaping_rule "plain").2.1 (by decide)⟩

/-- C1. For every portfolio ledger and company, the zakatable amount is
`invested × ratio` and the zakat due is `zakatable × 0.025`, both defined
exactly when the ledger contains the company's uppercased ticker and the
ratio is a (finite) number; in every other case both are `none`, never
`0`. -/
theorem zakat_calculator_presence (rows : List PortfolioInputRow) (company : CompanyValuation) :
    (∀ investedAmount ratio,
        portfolioAmountMap rows (jsToUpper company.ticker) = some investedAmount →
        company.cri_to_market_price_ratio = some ratio →
        computePortfolioZakatableAmount (portfolioAmountMap rows) company =
            some (investedAmount * ratio) ∧
        computePortfolioZakatDue (portfolioAmountMap rows) company =
            some (investedAmount * ratio * ZAKAT_RATE)) ∧
    (portfolioAmountMap rows (jsToUpper company.ticker) = none ∨
        company.cri_to_market_price_ratio = none →
      computePortfolioZakatableAmount (portfolioAmountMap rows) company = none ∧
      computePortfolioZakatDue (portfolioAmountMap rows) company = none) := by
  constructor
  · intro investedAmount ratio hledger hratio
    have hticker : company.ticker ≠ "" := by
      intro hblank
      rw [hblank] at hledger
      have : portfolioAmountMap rows "" = none := portfolioAmountMap_blank_key rows
      simp [jsToUpper] at hledger
      rw [hledger] at this
      exact Option.noConfusion this
    constructor
    · simp [computePortfolioZakatableAmount, hticker, hledger, hratio]
    · simp [computePortfolioZakatDue, computePortfolioZakatableAmount, hticker, hledger, hratio]
  · intro h
    by_cases hticker : company.ticker = ""
    · constructor
      · simp [computePortfolioZakatableAmount, hticker]
      · simp [computePortfolioZakatDue, computePortfolioZakatableAmount, hticker]
    · rcases h with h | h
      · constructor
        · simp [computePortfolioZakatableAmount, hticker, h]
        · simp [computePortfolioZakatDue, computePortfolioZakatableAmount, hticker, h]
      · constructor
        · simp [computePortfolioZakatableAmount, hticker, h]
        · simp [computePortfolioZakatDue, computePortfolioZakatableAmount, hticker, h]

/-- C2. For every fund, the extrapolated CRI ratio is
`aggregate / total_weight_covered` exactly when both are present and the
coverage is positive; when the coverage is absent or not positive, or the
aggregate is absent, the extrapolated ratio, the fund's zakatable amount
and its zakat due are all `none`. -/
theorem fund_extrapolation_presence (amounts : AmountMap) (fund : FundValuation) :
    (∀ aggregateCriRatio totalWeightCovered,
        fund.aggregate_cri_to_market_price_ratio = some aggregateCriRatio →
        fund.total_weight_covered = some totalWeightCovered →
        0 < totalWeightCovered →
        extrapolatedCriRatio fund = some (aggregateCriRatio / totalWeightCovered)) ∧
    (fund.aggregate_cri_to_market_price_ratio = none ∨
        fund.total_weight_covered = none ∨
        (∃ w, fund.total_weight_covered = some w ∧ ¬ 0 < w) →
      extrapolatedCriRatio fund = none ∧
      fundZakatableAmount amounts fund = none ∧
      fundZakatDue amounts fund = none) := by
  constructor
  · intro aggregateCriRatio totalWeightCovered hagg hcov hpos
    simp [extrapolatedCriRatio, hagg, hcov, hpos]
  · intro h
    have hextra : extrapolatedCriRatio fund = none := by
      rcases h with h | h | ⟨w, hw, hnpos⟩
      · simp [extrapolatedCriRatio, h]
      · simp [extrapolatedCriRatio, h]
      · cases hagg : fund.aggregate_cri_to_market_price_ratio with
        | none => simp [extrapolatedCriRatio, hagg]
        | some a => simp [extrapolatedCriRatio, hagg, hw, hnpos]
    refine ⟨hextra, ?_, ?_⟩
    · cases hledger : amounts (jsToUpper fund.ticker) with
      | none => simp [fundZakatableAmount, hledger]
      | some inv => simp [fundZakatableAmount, hledger, hextra]
    · have hz : fundZakatableAmount amounts fund = none := by
        cases hledger : amounts (jsToUpper fund.ticker) with
        | none => simp [fundZakatableAmount, hledger]
        | some inv => simp [fundZakatableAmount, hledger, hextra]
      simp [fundZakatDue, hz]

/-- Witness for C1: a single AAPL row with amount 100 and ratio 1 yields
zakatable 100 × 1 and due 100 × 1 × 0.025. -/
theorem zakat_calculator_presence_witness :
    computePortfolioZakatableAmount
        (portfolioAmountMap [{ ticker := "AAPL", shares := "", amount := "100" }])
        { ticker := "AAPL", cri_to_market_price_ratio := some 1 } = some (100 * 1) ∧
    computePortfolioZakatDue
        (portfolioAmountMap [{ ticker := "AAPL", shares := "", amount := "100" }])
        { ticker := "AAPL", cri_to_market_price_ratio := some 1 } = some (100 * 1 * ZAKAT_RATE) :=
  (zakat_calculator_presence [{ ticker := "AAPL", shares := "", amount := "100" }]
      { ticker := "AAPL", cri_to_market_price_ratio := some 1 }).1 100 1
    (by simp [portfolioAmountMap, ledgerInsert, jsFiniteNumber, jsStringToNumber, trimChars,
          jsWhitespace, jsTrim, jsToUpper, decimalSigned, decimalUnsigned, parseDecimal,
          parseMantissa, parseBaseDigits, digitVal])
    rfl

/-- Witness for C2: aggregate ratio 1 with full coverage 1 extrapolates
to 1 / 1. -/
theorem fund_extrapolation_presence_witness :
    extrapolatedCriRatio
        { ticker := "VOO", aggregate_cri_to_market_price_ratio := some 1,
          total_weight_covered := some 1 } = some (1 / 1) :=
  (fund_extrapolation_presence (fun _ => none)
      { ticker := "VOO", aggregate_cri_to_market_price_ratio := some 1,
        total_weight_covered := some 1 }).1 1 1 rfl rfl (by norm_num)

theorem trimChars_of_all_whitespace (cs : List Char) (h : cs.all jsWhitespace = true) :
    trimChars cs = [] := by
  have h1 : cs.dropWhile jsWhitespace = [] := by
    rw [List.dropWhile_eq_nil_iff]
    intro x hx
    exact List.all_eq_true.mp h x hx
  simp [trimChars, h1]

theorem jsFiniteNumber_whitespace (s : String) (h : s.data.all jsWhitespace = true) :
    jsFiniteNumber s = some 0 := by
  have ht : trimChars s.data = [] := trimChars_of_all_whitespace s.data h
  simp [jsFiniteNumber, jsStringToNumber, ht]

/-- C10. A row with a non-blank ticker and an empty or whitespace-only
amount string is kept in the ledger with invested amount 0 (since
`Number("")` is the finite number 0), so the derived zakatable amount for
that ticker is 0 rather than unknown. -/
theorem blank_amount_coerces_to_zero (row : PortfolioInputRow) (company : CompanyValuation)
    (ratio : ℚ)
    (hmatch : jsToUpper (jsTrim row.ticker) = jsToUpper company.ticker)
    (hne : jsToUpper (jsTrim row.ticker) ≠ "")
    (hblank : row.amount.data.all jsWhitespace = true)
    (hratio : company.cri_to_market_price_ratio = some ratio) :
    portfolioAmountMap [row] (jsToUpper company.ticker) = some 0 ∧
    computePortfolioZakatableAmount (portfolioAmountMap [row]) company = some 0 := by
  have hamount : jsFiniteNumber row.amount = some 0 := jsFiniteNumber_whitespace row.amount hblank
  have hledger : portfolioAmountMap [row] (jsToUpper company.ticker) = some 0 := by
    rw [← hmatch]
    have := ledgerInsert_hit (fun _ => none) row.ticker row.amount 0 hne hamount
    unfold portfolioAmountMap
    simpa using this
  refine ⟨hledger, ?_⟩
  have := (zakat_calculator_presence [row] company).1 0 ratio hledger hratio
  rw [this.1, zero_mul]

/-- Witness for C10: the ticker AAPL with a whitespace-only amount maps
to invested amount 0 and zakatable amount 0. -/
theorem blank_amount_coerces_to_zero_witness :
    portfolioAmountMap [{ ticker := "AAPL", shares := "", amount := "   " }]
        (jsToUpper (CompanyValuation.ticker { ticker := "AAPL", cri_to_market_price_ratio := some 1 })) = some 0 ∧
    computePortfolioZakatableAmount
        (portfolioAmountMap [{ ticker := "AAPL", shares := "", amount := "   " }])
        { ticker := "AAPL", cri_to_market_price_ratio := some 1 } = some 0 :=
  blank_amount_coerces_to_zero { ticker := "AAPL", shares := "", amount := "   " }
    { ticker := "AAPL", cri_to_market_price_ratio := some 1 } 1 rfl (by decide) (by decide) rfl

theorem ledgerFold_filter_nan {α : Type} (tick amt : α → String) (rows : List α)
    (m : AmountMap) :
    rows.foldl (fun map row => ledgerInsert map (tick row) (amt row)) m =
      (rows.filter (fun row => (jsFiniteNumber (amt row)).isSome)).foldl
        (fun map row => ledgerInsert map (tick row) (amt row)) m := by
  induction rows generalizing m with
  | nil => rfl
  | cons row rest ih =>
    by_cases hp : (jsFiniteNumber (amt row)).isSome
    · have hf : List.filter (fun r => (jsFiniteNumber (amt r)).isSome) (row :: rest) =
          row :: List.filter (fun r => (jsFiniteNumber (amt r)).isSome) rest := by
        simp [List.filter_cons, hp]
      rw [hf, List.foldl_cons, List.foldl_cons]
      exact ih _
    · have hnone : jsFiniteNumber (amt row) = none := Option.not_isSome_iff_eq_none.mp hp
      have hf : List.filter (fun r => (jsFiniteNumber (amt r)).isSome) (row :: rest) =
          List.filter (fun r => (jsFiniteNumber (amt r)).isSome) rest := by
        simp [List.filter_cons, hp]
      rw [hf, List.foldl_cons, ledgerInsert_nan m (tick row) (amt row) hnone]
      exact ih m

theorem ledgerFold_support {α : Type} (tick amt : α → String) (rows : List α)
    (m : AmountMap) (key : String)
    (h : rows.foldl (fun map row => ledgerInsert map (tick row) (amt row)) m key ≠ none) :
    m key ≠ none ∨ ∃ row ∈ rows, jsToUpper (jsTrim (tick row)) = key := by
  induction rows generalizing m with
  | nil => exact Or.inl h
  | cons row rest ih =>
    rw [List.foldl_cons] at h
    rcases ih (ledgerInsert m (tick row) (amt row)) h with hstep | ⟨r, hr, hkey⟩
    · by_cases hk : key = jsToUpper (jsTrim (tick row))
      · exact Or.inr ⟨row, List.mem_cons_self row rest, hk.symm⟩
      · rw [ledgerInsert_miss m (tick row) (amt row) key hk] at hstep
        exact Or.inl hstep
    · exact Or.inr ⟨r, List.mem_cons_of_mem row hr, hkey⟩

theorem ledgerFold_sum {α : Type} (tick amt : α → String) (rows : List α)
    (m : AmountMap) (key : String) (hkey : key ≠ "") :
    rows.foldl (fun map row => ledgerInsert map (tick row) (amt row)) m key =
      if (rows.filter (fun row =>
            (jsToUpper (jsTrim (tick row)) == key) && (jsFiniteNumber (amt row)).isSome)).isEmpty
      then m key
      else some ((m key).getD 0 +
        ((rows.filter (fun row =>
              (jsToUpper (jsTrim (tick row)) == key) && (jsFiniteNumber (amt row)).isSome)).map
            (fun row => (jsFiniteNumber (amt row)).getD 0)).sum) := by
  induction rows generalizing m with
  | nil => simp
  | cons row rest ih =>
    rw [List.foldl_cons,
      ih (ledgerInsert m (tick row) (amt row))]
    by_cases hrel :
        ((jsToUpper (jsTrim (tick row)) == key) && (jsFiniteNumber (amt row)).isSome) = true
    · have hkeymatch : jsToUpper (jsTrim (tick row)) = key := by
        have := (Bool.and_eq_true _ _).mp hrel
        exact beq_iff_eq.mp this.1
      have hsome : (jsFiniteNumber (amt row)).isSome = true :=
        ((Bool.and_eq_true _ _).mp hrel).2
      obtain ⟨a, ha⟩ := Option.isSome_iff_exists.mp hsome
      have hne : jsToUpper (jsTrim (tick row)) ≠ "" := by
        rw [hkeymatch]; exact hkey
      have hstep := ledgerInsert_hit m (tick row) (amt row) a hne ha
      rw [hkeymatch] at hstep
      have hf : List.filter (fun r =>
            (jsToUpper (jsTrim (tick r)) == key) && (jsFiniteNumber (amt r)).isSome) (row :: rest) =
          row :: List.filter (fun r =>
            (jsToUpper (jsTrim (tick r)) == key) && (jsFiniteNumber (amt r)).isSome) rest := by
        simp [List.filter_cons, hrel]
      rw [hf]
      by_cases hrest : (List.filter (fun r =>
          (jsToUpper (jsTrim (tick r)) == key) && (jsFiniteNumber (amt r)).isSome) rest).isEmpty
      · have hnil := List.isEmpty_iff.mp hrest
        simp [hnil, hstep, ha]
      · have hrest' : (List.filter (fun r =>
            (jsToUpper (jsTrim (tick r)) == key) && (jsFiniteNumber (amt r)).isSome) rest).isEmpty
              = false := by
          cases hv : (List.filter (fun r =>
              (jsToUpper (jsTrim (tick r)) == key) && (jsFiniteNumber (amt r)).isSome) rest).isEmpty
          · rfl
          · exact absurd hv hrest
        simp [hrest', hstep, ha, add_assoc]
    · have hstep : ledgerInsert m (tick row) (amt row) key = m key := by
        by_cases hkeym : jsToUpper (jsTrim (tick row)) = key
        · have hnone : jsFiniteNumber (amt row) = none := by
            cases hv : jsFiniteNumber (amt row) with
            | none => rfl
            | some q =>
              exact absurd (by simp [hkeym, hv]) hrel
          rw [ledgerInsert_nan m (tick row) (amt row) hnone]
        · exact ledgerInsert_miss m (tick row) (amt row) key (fun h => hkeym h.symm)
      have hf : List.filter (fun r =>
            (jsToUpper (jsTrim (tick r)) == key) && (jsFiniteNumber (amt r)).isSome) (row :: rest) =
          List.filter (fun r =>
            (jsToUpper (jsTrim (tick r)) == key) && (jsFiniteNumber (amt r)).isSome) rest := by
        simp [List.filter_cons, hrel]
      rw [hf, hstep]

/-- C5. The ticker ledgers: each non-blank (trimmed, uppercased) ticker
maps to the sum of all finite amounts entered for it — in particular a
ticker entered twice in any letter case sums its two amounts; rows whose
amount is not a finite number are dropped silently; and each ledger's
keys come only from its own input row list (the direct-portfolio and fund
ledgers are built independently and never merged). -/
theorem ticker_ledger_summation :
    (∀ (rows : List PortfolioInputRow) (key : String), key ≠ "" →
        portfolioAmountMap rows key =
          if (rows.filter (fun row =>
                (jsToUpper (jsTrim row.ticker) == key) && (jsFiniteNumber row.amount).isSome)).isEmpty
          then none
          else some ((rows.filter (fun row =>
                  (jsToUpper (jsTrim row.ticker) == key) && (jsFiniteNumber row.amount).isSome)).map
                (fun row => (jsFiniteNumber row.amount).getD 0)).sum) ∧
    (∀ (r1 r2 : PortfolioInputRow) (key : String) (a1 a2 : ℚ),
        jsToUpper (jsTrim r1.ticker) = key → jsToUpper (jsTrim r2.ticker) = key → key ≠ "" →
        jsFiniteNumber r1.amount = some a1 → jsFiniteNumber r2.amount = some a2 →
        portfolioAmountMap [r1, r2] key = some (a1 + a2)) ∧
    (∀ (rows : List PortfolioInputRow) (key : String),
        portfolioAmountMap rows key =
          portfolioAmountMap (rows.filter (fun row => (jsFiniteNumber row.amount).isSome)) key) ∧
    (∀ (rows : List PortfolioInputRow) (key : String),
        portfolioAmountMap rows key ≠ none →
        ∃ row ∈ rows, jsToUpper (jsTrim row.ticker) = key) ∧
    (∀ (rows : List FundInputRow) (key : String),
        fundAmountMap rows key ≠ none →
        ∃ row ∈ rows, jsToUpper (jsTrim row.ticker) = key) := by
  refine ⟨?_, ?_, ?_, ?_, ?_⟩
  · intro rows key hkey
    unfold portfolioAmountMap
    rw [ledgerFold_sum (fun row => row.ticker) (fun row => row.amount) rows (fun _ => none) key hkey]
    simp
  · intro r1 r2 key a1 a2 h1 h2 hkey ha1 ha2
    unfold portfolioAmountMap
    rw [List.foldl_cons, List.foldl_cons, List.foldl_nil]
    have step1 : ledgerInsert (fun _ => none) r1.ticker r1.amount key = some (0 + a1) := by
      rw [← h1]
      have := ledgerInsert_hit (fun _ => none) r1.ticker r1.amount a1 (h1 ▸ hkey) ha1
      simpa using this
    have step2 := ledgerInsert_hit (ledgerInsert (fun _ => none) r1.ticker r1.amount)
      r2.ticker r2.amount a2 (h2 ▸ hkey) ha2
    rw [h2] at step2
    rw [step2, step1]
    norm_num
  · intro rows key
    unfold portfolioAmountMap
    rw [ledgerFold_filter_nan (fun row => row.ticker) (fun row => row.amount) rows]
  · intro rows key h
    unfold portfolioAmountMap at h
    rcases ledgerFold_support (fun row => row.ticker) (fun row => row.amount) rows
        (fun _ => none) key h with hbase | hrow
    · exact absurd rfl hbase
    · exact hrow
  · intro rows key h
    unfold fundAmountMap at h
    rcases ledgerFold_support (fun row => row.ticker) (fun row => row.amount) rows
        (fun _ => none) key h with hbase | hrow
    · exact absurd rfl hbase
    · exact hrow

/-- Witness for C5: `aapl` and `" AAPL "` with amounts 100 and 50 sum to
150 under the single key `AAPL`. -/
theorem ticker_ledger_summation_witness :
    portfolioAmountMap
        [{ ticker := "aapl", shares := "", amount := "100" },
         { ticker := " AAPL ", shares := "", amount := "50" }] "AAPL" = some (100 + 50) :=
  ticker_ledger_summation.2.1
    { ticker := "aapl", shares := "", amount := "100" }
    { ticker := " AAPL ", shares := "", amount := "50" } "AAPL" 100 50
    (by decide) (by decide) (by decide) rfl rfl

theorem resolvedVisible_change (columns : List PortfolioColumn) (config : ColumnConfigMap)
    (x : String) (v : Bool) (id : String) :
    resolvedVisible (handlePortfolioColumnVisibilityChange columns config x v) id =
      if id = x then v else resolvedVisible config id := by
  by_cases h : id = x <;> simp [resolvedVisible, handlePortfolioColumnVisibilityChange, h]

/-- C8. `visiblePortfolioColumns` is the ordered subsequence of the
column definitions whose resolved visibility is true; toggling a column
off removes exactly that column from the visible list (preserving order),
and toggling it back on restores the original visible list, the column at
its original position. -/
theorem visible_columns_toggle :
    (∀ (columns : List PortfolioColumn) (config : ColumnConfigMap),
        (visiblePortfolioColumns columns config).Sublist columns) ∧
    (∀ (columns : List PortfolioColumn) (config : ColumnConfigMap) (x : String),
        visiblePortfolioColumns columns (handlePortfolioColumnVisibilityChange columns config x false) =
          (visiblePortfolioColumns columns config).filter (fun column => column.id != x)) ∧
    (∀ (columns : List PortfolioColumn) (config : ColumnConfigMap) (x : String),
        resolvedVisible config x = true →
        visiblePortfolioColumns columns
            (handlePortfolioColumnVisibilityChange columns
              (handlePortfolioColumnVisibilityChange columns config x false) x true) =
          visiblePortfolioColumns columns config) := by
  refine ⟨?_, ?_, ?_⟩
  · intro columns config
    exact List.filter_sublist columns
  · intro columns config x
    unfold visiblePortfolioColumns
    rw [List.filter_filter]
    refine List.filter_congr ?_
    intro column _
    rw [resolvedVisible_change]
    by_cases h : column.id = x <;> simp [h]
  · intro columns config x hvis
    unfold visiblePortfolioColumns
    refine List.filter_congr ?_
    intro column _
    rw [resolvedVisible_change, resolvedVisible_change]
    by_cases h : column.id = x
    · simp [h, hvis]
    · simp [h]

/-- Witness for C8: toggling the `cash` column of the static portfolio
definitions off and back on restores the initial visible-column list. -/
theorem visible_columns_toggle_witness :
    visiblePortfolioColumns (portfolioColumns (fun _ => none))
        (handlePortfolioColumnVisibilityChange (portfolioColumns (fun _ => none))
          (handlePortfolioColumnVisibilityChange (portfolioColumns (fun _ => none))
            (initialPortfolioColumnConfig (portfolioColumns (fun _ => none))) "cash" false)
          "cash" true) =
      visiblePortfolioColumns (portfolioColumns (fun _ => none))
        (initialPortfolioColumnConfig (portfolioColumns (fun _ => none))) :=
  visible_columns_toggle.2.2 (portfolioColumns (fun _ => none))
    (initialPortfolioColumnConfig (portfolioColumns (fun _ => none))) "cash" (by decide)

theorem holdingWeightKey_eq_bot (holding : FundHoldingValuation) :
    holdingWeightKey holding = ⊥ ↔ holding.weight = none := by
  cases hw : holding.weight with
  | none => simp [holdingWeightKey, hw]
  | some w => simp [holdingWeightKey, hw]

/-- C7. The displayed fund holdings are a permutation of the fund's own
holdings list (which the pure sort leaves untouched), sorted by weight
descending with every unknown-weight holding after all known-weight ones;
the weight cell of an unknown weight renders `N/A` (the second static
fund-holding column), never a negative infinity. -/
theorem holdings_display_order (fund : FundValuation) :
    (displayedHoldings fund).Perm fund.holdings ∧
    (displayedHoldings fund).Pairwise
      (fun a b => holdingWeightKey b ≤ holdingWeightKey a) ∧
    (displayedHoldings fund).Pairwise
      (fun a b => a.weight = none → b.weight = none) ∧
    (∀ holding : FundHoldingValuation, holding.weight = none →
      (fundHoldingColumns.map (fun column => column.renderCell holding))[1]? = some "N/A") := by
  have htrans : ∀ a b c : FundHoldingValuation,
      decide (holdingWeightKey b ≤ holdingWeightKey a) = true →
      decide (holdingWeightKey c ≤ holdingWeightKey b) = true →
      decide (holdingWeightKey c ≤ holdingWeightKey a) = true := by
    intro a b c hab hbc
    rw [decide_eq_true_eq] at hab hbc ⊢
    exact le_trans hbc hab
  have htotal : ∀ a b : FundHoldingValuation,
      (decide (holdingWeightKey b ≤ holdingWeightKey a) ||
        decide (holdingWeightKey a ≤ holdingWeightKey b)) = true := by
    intro a b
    rcases le_total (holdingWeightKey b) (holdingWeightKey a) with h | h <;> simp [h]
  have hsorted := List.sorted_mergeSort htrans htotal fund.holdings
  have hpair : (displayedHoldings fund).Pairwise
      (fun a b => holdingWeightKey b ≤ holdingWeightKey a) := by
    refine List.Pairwise.imp ?_ hsorted
    intro a b h
    exact of_decide_eq_true h
  refine ⟨List.mergeSort_perm fund.holdings _, hpair, ?_, ?_⟩
  · refine List.Pairwise.imp ?_ hpair
    intro a b hle ha
    have hbot : holdingWeightKey a = ⊥ := (holdingWeightKey_eq_bot a).mpr ha
    rw [hbot] at hle
    exact (holdingWeightKey_eq_bot b).mp (le_bot_iff.mp hle)
  · intro holding hw
    simp [fundHoldingColumns, hw]

/-- Witness for C7: a holding with no reported weight renders `N/A` in
the weight column. -/
theorem holdings_display_order_witness :
    ((fundHoldingColumns.map (fun column =>
        column.renderCell { warnings := ["w"] }))[1]? : Option String) = some "N/A" :=
  (holdings_display_order { ticker := "VOO" }).2.2.2 { warnings := ["w"] } rfl

/-- Counterexample for C3. The fund-holdings export does not use the
currently visible columns: with every fund-holding column visible (the
initial configuration), its header row is not the visible labels plus one
trailing warnings column, and its data row for a holding has 15 entries
where the claim prescribes 9 + 1. -/
theorem fund_export_fixed_columns_cex :
    fundHoldingsCsvHeaders ≠
      (visibleFundHoldingColumns fundHoldingColumns
          (initialFundHoldingColumnConfig fundHoldingColumns)).map
          (fun column => column.label) ++ ["Warnings"] ∧
    (fundHoldingsCsvRow { warnings := [] }).length ≠
      (visibleFundHoldingColumns fundHoldingColumns
          (initialFundHoldingColumnConfig fundHoldingColumns)).length + 1 := by
  constructor
  · intro h
    have := congrArg List.length h
    revert this
    decide
  · decide

/-- C3 as amended. The portfolio export uses exactly the currently
visible columns, one row per company as the visible export values plus a
trailing warnings column (warnings joined by a single space), and each
column's export value is the very value its display path derives (render
and export functions agree for every portfolio and fund-holding column);
the fund-holdings export, however, emits a fixed fifteen-column layout
(label, ticker, name, ISIN, CUSIP, weight, cash, receivables,
inventories, market price, shares, CRI per share, CRI ratio, holding
warnings, company warnings) independent of column visibility. -/
theorem export_paths_amended :
    (∀ (columns : List PortfolioColumn) (config : ColumnConfigMap)
        (result : List CompanyValuation), result ≠ [] →
        handleDownloadPortfolio columns config result =
          some (createCsvContent
            ((visiblePortfolioColumns columns config).map (fun column => column.label) ++
              ["Warnings"])
            (result.map (fun company =>
              (visiblePortfolioColumns columns config).map
                  (fun column => column.getExportValue company) ++
                [String.intercalate " " company.warnings])))) ∧
    (∀ (amounts : AmountMap) (company : CompanyValuation),
        ∀ column ∈ portfolioColumns amounts,
          column.renderCell company = column.getExportValue company) ∧
    (∀ holding : FundHoldingValuation,
        ∀ column ∈ fundHoldingColumns,
          column.renderCell holding = column.getExportValue holding) ∧
    (∀ fund : FundValuation, fund.holdings ≠ [] →
        handleDownloadFundHoldings fund =
          some (createCsvContent fundHoldingsCsvHeaders
            (fund.holdings.map fundHoldingsCsvRow)) ∧
        ∀ row ∈ fund.holdings.map fundHoldingsCsvRow,
          row.length = fundHoldingsCsvHeaders.length) := by
  refine ⟨?_, ?_, ?_, ?_⟩
  · intro columns config result h
    have hne : result.isEmpty = false := by
      cases result with
      | nil => exact absurd rfl h
      | cons c rest => rfl
    simp [handleDownloadPortfolio, visiblePortfolioColumns, hne]
  · intro amounts company column hmem
    simp only [portfolioColumns, List.mem_cons, List.not_mem_nil, or_false] at hmem
    rcases hmem with rfl | rfl | rfl | rfl | rfl | rfl | rfl | rfl | rfl | rfl | rfl | rfl <;> rfl
  · intro holding column hmem
    simp only [fundHoldingColumns, List.mem_cons, List.not_mem_nil, or_false] at hmem
    rcases hmem with rfl | rfl | rfl | rfl | rfl | rfl | rfl | rfl | rfl <;> rfl
  · intro fund h
    have hne : fund.holdings.isEmpty = false := by
      cases hh : fund.holdings with
      | nil => exact absurd hh h
      | cons cHead cTail => rfl
    refine ⟨by simp [handleDownloadFundHoldings, hne], ?_⟩
    intro row hrow
    rcases List.mem_map.mp hrow with ⟨holding, _, rfl⟩
    rfl

/-- Witness for C3 (amended): a one-company result with no visible
columns configured exports the visible labels (none) plus the warnings
column. -/
theorem export_paths_amended_witness :
    handleDownloadPortfolio [] (fun _ => none) [{ ticker := "AAPL", warnings := ["w1", "w2"] }] =
      some (createCsvContent
        ((visiblePortfolioColumns [] (fun _ => none)).map (fun column => column.label) ++
          ["Warnings"])
        (([{ ticker := "AAPL", warnings := ["w1", "w2"] }] : List CompanyValuation).map (fun company =>
          (visiblePortfolioColumns [] (fun _ => none)).map
              (fun column => column.getExportValue company) ++
            [String.intercalate " " company.warnings]))) :=
  export_paths_amended.1 [] (fun _ => none) [{ ticker := "AAPL", warnings := ["w1", "w2"] }]
    (List.cons_ne_nil _ _)

/-- Counterexample for C9. With zero visible columns the portfolio export
is not blocked and is not a header-only artifact: it still emits a CSV
whose header is the warnings column and whose data row carries the
company's warnings, and the download button is enabled (it only checks
for empty results). -/
theorem zero_visible_columns_export_cex :
    handleDownloadPortfolio (portfolioColumns (fun _ => none))
        (fun _ => some { visible := false, width := 160 })
        [{ ticker := "AAPL", warnings := ["Missing data"] }] =
      some "Warnings\nMissing data" ∧
    "Warnings\nMissing data" ≠ "Warnings" ∧
    downloadPortfolioDisabled [{ ticker := "AAPL", warnings := ["Missing data"] }] = false := by
  refine ⟨by decide, by decide, by decide⟩

/-- C9 as amended. With zero visible columns and a non-empty result the
portfolio export emits a CSV of the single trailing `Warnings` column
(one warnings row per company) rather than being detected and blocked;
the download button is disabled exactly when there are no result rows,
and the nothing-selected state is surfaced only by the on-screen table,
which shows the select-at-least-one-column message exactly when no
columns are visible. -/
theorem zero_visible_columns_export_amended :
    (∀ (columns : List PortfolioColumn) (config : ColumnConfigMap)
        (result : List CompanyValuation),
        visiblePortfolioColumns columns config = [] → result ≠ [] →
        handleDownloadPortfolio columns config result =
          some (createCsvContent ["Warnings"]
            (result.map (fun company => [String.intercalate " " company.warnings])))) ∧
    (∀ result : List CompanyValuation,
        downloadPortfolioDisabled result = true ↔ result = []) ∧
    (∀ (columns : List PortfolioColumn) (config : ColumnConfigMap),
        portfolioShowsSelectColumnsMessage columns config = true ↔
          visiblePortfolioColumns columns config = []) := by
  refine ⟨?_, ?_, ?_⟩
  · intro columns config result hvis h
    have hne : result.isEmpty = false := by
      cases result with
      | nil => exact absurd rfl h
      | cons c rest => rfl
    have hfilter : columns.filter (fun column => resolvedVisible config column.id) = [] := hvis
    simp [handleDownloadPortfolio, hne, hfilter]
  · intro result
    simp [downloadPortfolioDisabled, List.length_eq_zero]
  · intro columns config
    simp [portfolioShowsSelectColumnsMessage, Nat.pos_iff_ne_zero, List.length_eq_zero]

/-- Witness for C9 (amended): one company, all twelve portfolio columns
hidden — the export is the warnings header plus the company's joined
warnings. -/
theorem zero_visible_columns_export_amended_witness :
    handleDownloadPortfolio (portfolioColumns (fun _ => none))
        (fun _ => some { visible := false, width := 160 })
        [{ ticker := "AAPL", warnings := ["Missing data"] }] =
      some (createCsvContent ["Warnings"]
        (([{ ticker := "AAPL", warnings := ["Missing data"] }] : List CompanyValuation).map
          (fun company => [String.intercalate " " company.warnings]))) :=
  zero_visible_columns_export_amended.1 (portfolioColumns (fun _ => none))
    (fun _ => some { visible := false, width := 160 })
    [{ ticker := "AAPL", warnings := ["Missing data"] }]
    (by rfl) (List.cons_ne_nil _ _)

/-- Counterexample for C4. The two modes do not keep separate error
state: after a failed portfolio request sets the shared `error` field, a
failed fund request overwrites it, so the portfolio mode's displayed
error changes because of the other mode's outcome. -/
theorem shared_error_state_cex :
    (handlePortfolioSubmit
        { asOfDate := "2024-06-30",
          portfolioRows := [{ ticker := "AAPL", shares := "", amount := "" }],
          fundRows := [{ ticker := "VOO", amount := "" }],
          portfolioResult := [], fundResult := [],
          portfolioGeneratedAt := none, fundGeneratedAt := none,
          portfolioLoading := false, fundLoading := false,
          error := none, activeTab := Tab.portfolio }
        (FetchOutcome.failed "portfolio failed")).error = some "portfolio failed" ∧
    (handleFundFetch
        (handlePortfolioSubmit
          { asOfDate := "2024-06-30",
            portfolioRows := [{ ticker := "AAPL", shares := "", amount := "" }],
            fundRows := [{ ticker := "VOO", amount := "" }],
            portfolioResult := [], fundResult := [],
            portfolioGeneratedAt := none, fundGeneratedAt := none,
            portfolioLoading := false, fundLoading := false,
            error := none, activeTab := Tab.portfolio }
          (FetchOutcome.failed "portfolio failed"))
        (FetchOutcome.failed "fund failed")).error = some "fund failed" ∧
    some "fund failed" ≠ some "portfolio failed" := by
  refine ⟨by decide, by decide, by decide⟩

/-- C4 as amended. The loading and result state of the two modes is fully
separate — a fund run never touches the portfolio mode's loading, result
or generated-at fields, and vice versa — but the error state is one
shared field: a validated request of either mode (a fund fetch past its
validation, or a portfolio submit on the portfolio tab past its
validation) overwrites it with its own outcome (`none` on success, the
failure message on failure) regardless of what the other mode had stored
there. -/
theorem mode_state_separation_amended :
    (∀ (s : AppState) (outcome : FetchOutcome),
        (handleFundFetch s outcome).portfolioLoading = s.portfolioLoading ∧
        (handleFundFetch s outcome).portfolioResult = s.portfolioResult ∧
        (handleFundFetch s outcome).portfolioGeneratedAt = s.portfolioGeneratedAt) ∧
    (∀ (s : AppState) (outcome : FetchOutcome),
        (handlePortfolioSubmit s outcome).fundLoading = s.fundLoading ∧
        (handlePortfolioSubmit s outcome).fundResult = s.fundResult ∧
        (handlePortfolioSubmit s outcome).fundGeneratedAt = s.fundGeneratedAt) ∧
    (∀ (s : AppState) (outcome : FetchOutcome),
        s.asOfDate ≠ "" →
        (s.fundRows.filter (fun row => jsTrim row.ticker ≠ "")).isEmpty = false →
        (handleFundFetch s outcome).error =
          (match outcome with
           | FetchOutcome.ok _ => none
           | FetchOutcome.failed message => some message)) ∧
    (∀ (s : AppState) (outcome : FetchOutcome),
        s.activeTab = Tab.portfolio →
        s.asOfDate ≠ "" →
        (s.portfolioRows.filter (fun row => jsTrim row.ticker ≠ "")).isEmpty = false →
        (handlePortfolioSubmit s outcome).error =
          (match outcome with
           | FetchOutcome.ok _ => none
           | FetchOutcome.failed message => some message)) := by
  refine ⟨?_, ?_, ?_, ?_⟩
  · intro s outcome
    unfold handleFundFetch
    split
    · exact ⟨rfl, rfl, rfl⟩
    · split
      · exact ⟨rfl, rfl, rfl⟩
      · cases outcome <;> exact ⟨rfl, rfl, rfl⟩
  · intro s outcome
    unfold handlePortfolioSubmit
    split
    · exact ⟨rfl, rfl, rfl⟩
    · split
      · exact ⟨rfl, rfl, rfl⟩
      · split
        · exact ⟨rfl, rfl, rfl⟩
        · cases outcome <;> exact ⟨rfl, rfl, rfl⟩
  · intro s outcome h1 h2
    unfold handleFundFetch
    rw [if_neg h1, if_neg (by rw [h2]; exact Bool.false_ne_true)]
    cases outcome <;> rfl
  · intro s outcome h0 h1 h2
    unfold handlePortfolioSubmit
    rw [if_neg (not_not_intro h0), if_neg h1,
      if_neg (by rw [h2]; exact Bool.false_ne_true)]
    cases outcome <;> rfl

/-- Witness for C4 (amended): in the concrete state used by the
counterexample, a failed fund request overwrites the shared error with
its own message, and a successful portfolio submit clears the shared
error left by a fund failure. -/
theorem mode_state_separation_amended_witness :
    (handleFundFetch
        { asOfDate := "2024-06-30",
          portfolioRows := [{ ticker := "AAPL", shares := "", amount := "" }],
          fundRows := [{ ticker := "VOO", amount := "" }],
          portfolioResult := [], fundResult := [],
          portfolioGeneratedAt := none, fundGeneratedAt := none,
          portfolioLoading := false, fundLoading := false,
          error := some "portfolio failed", activeTab := Tab.portfolio }
        (FetchOutcome.failed "fund failed")).error =
      (match FetchOutcome.failed "fund failed" with
       | FetchOutcome.ok _ => none
       | FetchOutcome.failed message => some message) ∧
    (handlePortfolioSubmit
        { asOfDate := "2024-06-30",
          portfolioRows := [{ ticker := "AAPL", shares := "", amount := "" }],
          fundRows := [{ ticker := "VOO", amount := "" }],
          portfolioResult := [], fundResult := [],
          portfolioGeneratedAt := none, fundGeneratedAt := none,
          portfolioLoading := false, fundLoading := false,
          error := some "fund failed", activeTab := Tab.portfolio }
        (FetchOutcome.ok
          { generated_at := "2024-06-30T00:00:00Z", as_of_date := "2024-06-30",
            portfolio := [], funds := [] })).error =
      (match FetchOutcome.ok
          ({ generated_at := "2024-06-30T00:00:00Z", as_of_date := "2024-06-30",
             portfolio := [], funds := [] } : ValuationResponse) with
       | FetchOutcome.ok _ => none
       | FetchOutcome.failed message => some message) :=
  ⟨mode_state_separation_amended.2.2.1
      { asOfDate := "2024-06-30",
        portfolioRows := [{ ticker := "AAPL", shares := "", amount := "" }],
        fundRows := [{ ticker := "VOO", amount := "" }],
        portfolioResult := [], fundResult := [],
        portfolioGeneratedAt := none, fundGeneratedAt := none,
        portfolioLoading := false, fundLoading := false,
        error := some "portfolio failed", activeTab := Tab.portfolio }
      (FetchOutcome.failed "fund failed") (by decide) (by decide),
    mode_state_separation_amended.2.2.2
      { asOfDate := "2024-06-30",
        portfolioRows := [{ ticker := "AAPL", shares := "", amount := "" }],
        fundRows := [{ ticker := "VOO", amount := "" }],
        portfolioResult := [], fundResult := [],
        portfolioGeneratedAt := none, fundGeneratedAt := none,
        portfolioLoading := false, fundLoading := false,
        error := some "fund failed", activeTab := Tab.portfolio }
      (FetchOutcome.ok
        { generated_at := "2024-06-30T00:00:00Z", as_of_date := "2024-06-30",
          portfolio := [], funds := [] })
      rfl (by decide) (by decide)⟩

end ZakatApp
